import Mathlib

/-!
Shallow embedding of `src/components/views/auth/ServerConfig.js`
(matrix-react-sdk): the validation / debounce control logic of the
`ServerConfig` React component.

Modelling choices:
* Every observable action of the component (a `setState` call with its
  exact field patch, a call to the discovery collaborator
  `AutoDiscoveryUtils.validateServerConfigWithStaticUrls`, an invocation of
  the owner callback `onServerConfigChange`, a `console.error` log, a call
  to `onAfterSubmit`) is recorded as an `Event` in the order the source
  performs it.  `applyEvent` folds the `setState` patches into the React
  state record exactly as React merges partial updates.
* The asynchronous discovery collaborator is an oracle
  `validate : String → String → DiscoveryResult`: it gives the value the
  awaited promise settles with for the given URLs.
* The `await` suspension point in `validateAndApplyServer` splits the slow
  path into a trigger segment (events before the await) and a resolution
  segment (events after it); overlapping attempts interleave at exactly
  that point (single-threaded event loop).
* `setTimeout` / `clearTimeout` are modelled by `TimerWorld`: a list of
  live timer ids plus a fresh-id counter; every scheduled callback of this
  component is `validateServer`.
-/

namespace ServerConfigSpec

/-- `ValidatedServerConfig` as consumed here: only the two URL fields are
inspected by this component; a config is produced by the collaborator or
taken verbatim from the default. -/
structure ServerConfig where
  hsUrl : String
  isUrl : String
  deriving DecidableEq, Repr

/-- The error thrown by the discovery collaborator: it optionally carries a
pre-translated user-facing message (`e.translatedMessage`). -/
structure DiscoveryError where
  translatedMessage : Option String
  deriving DecidableEq, Repr

/-- Settlement of the collaborator's promise. -/
inductive DiscoveryResult where
  | ok (cfg : ServerConfig)
  | err (e : DiscoveryError)
  deriving DecidableEq, Repr

/-- `this.state` of the component. -/
structure ComponentState where
  busy : Bool
  errorText : String
  hsUrl : String
  isUrl : String
  deriving DecidableEq, Repr

/-- The component constructor: `busy: false, errorText: "",
hsUrl: props.serverConfig.hsUrl, isUrl: props.serverConfig.isUrl`. -/
def initialState (serverConfig : ServerConfig) : ComponentState :=
  { busy := false, errorText := "", hsUrl := serverConfig.hsUrl,
    isUrl := serverConfig.isUrl }

/-- One observable action of the component, in program order. -/
inductive Event where
  /-- `this.setState({busy, errorText})` — leaves the URL fields alone. -/
  | setBusyError (busy : Bool) (errorText : String)
  /-- `this.setState({hsUrl, isUrl, busy, errorText})`. -/
  | setAll (hsUrl isUrl : String) (busy : Bool) (errorText : String)
  /-- `this.setState({ hsUrl })`. -/
  | setHsUrl (hsUrl : String)
  /-- `this.setState({ isUrl })`. -/
  | setIsUrl (isUrl : String)
  /-- `await AutoDiscoveryUtils.validateServerConfigWithStaticUrls(hsUrl, isUrl)`. -/
  | collaboratorCall (hsUrl isUrl : String)
  /-- `this.props.onServerConfigChange(cfg)`. -/
  | configChange (cfg : ServerConfig)
  /-- `console.error(e)`. -/
  | logError (e : DiscoveryError)
  /-- `this.props.onAfterSubmit()`. -/
  | afterSubmit
  deriving DecidableEq, Repr

/-- Apply one event to the React state (the merge semantics of `setState`);
non-`setState` events do not touch the state. -/
def applyEvent (s : ComponentState) : Event → ComponentState
  | .setBusyError b m => { s with busy := b, errorText := m }
  | .setAll h i b m => { hsUrl := h, isUrl := i, busy := b, errorText := m }
  | .setHsUrl h => { s with hsUrl := h }
  | .setIsUrl i => { s with isUrl := i }
  | .collaboratorCall _ _ => s
  | .configChange _ => s
  | .logError _ => s
  | .afterSubmit => s

/-- Fold a trace of events over a starting state. -/
def applyTrace (s : ComponentState) (t : List Event) : ComponentState :=
  t.foldl applyEvent s

/-- The arguments of the collaborator calls recorded in a trace. -/
def collaboratorCalls : List Event → List (String × String)
  | [] => []
  | .collaboratorCall h i :: t => (h, i) :: collaboratorCalls t
  | _ :: t => collaboratorCalls t

/-- The configs passed to the owner callback `onServerConfigChange`, in
order of invocation. -/
def configChanges : List Event → List ServerConfig
  | [] => []
  | .configChange c :: t => c :: configChanges t
  | _ :: t => configChanges t

/-- The raw errors logged with `console.error`, in order. -/
def loggedErrors : List Event → List DiscoveryError
  | [] => []
  | .logError e :: t => e :: loggedErrors t
  | _ :: t => loggedErrors t

/-- How many times `onAfterSubmit` was invoked in a trace. -/
def afterSubmitCount : List Event → Nat
  | [] => 0
  | .afterSubmit :: t => afterSubmitCount t + 1
  | _ :: t => afterSubmitCount t

/-- `_t("Unable to validate homeserver/identity server")` — the generic
fallback error message (translation is an excluded collaborator; it is
modelled as the identity on the message). -/
def unableToValidateMsg : String := "Unable to validate homeserver/identity server"

/-- The message computed in the catch block:
`let message = _t(...); if (e.translatedMessage) { message = e.translatedMessage; }`.
JavaScript truthiness: an absent field and the empty string are both falsy,
so the fallback is used for either. -/
def catchMessage (e : DiscoveryError) : String :=
  match e.translatedMessage with
  | some m => if m = "" then unableToValidateMsg else m
  | none => unableToValidateMsg

/-- `async validateAndApplyServer(hsUrl, isUrl)`: returns the event trace
it performs and its return value (`none` for the `return null` sentinel).
`defaultConfig` is `SdkConfig.get()["validated_server_config"]`;
`validate` is the settlement oracle of the discovery collaborator. -/
def validateAndApplyServer (defaultConfig : ServerConfig)
    (validate : String → String → DiscoveryResult)
    (hsUrl isUrl : String) : List Event × Option ServerConfig :=
  if defaultConfig.hsUrl = hsUrl ∧ defaultConfig.isUrl = isUrl then
    ([.setBusyError false "", .configChange defaultConfig], some defaultConfig)
  else
    let pre : List Event := [.setAll hsUrl isUrl true "", .collaboratorCall hsUrl isUrl]
    match validate hsUrl isUrl with
    | .ok result =>
      (pre ++ [.setBusyError false "", .configChange result], some result)
    | .err e =>
      (pre ++ [.logError e, .setBusyError false (catchMessage e)], none)

/-- `async validateServer()`: validates the current edit state. -/
def validateServer (defaultConfig : ServerConfig)
    (validate : String → String → DiscoveryResult)
    (s : ComponentState) : List Event × Option ServerConfig :=
  validateAndApplyServer defaultConfig validate s.hsUrl s.isUrl

/-- `componentWillReceiveProps(newProps)`: no-op when the incoming config's
URLs already equal the current edit state; otherwise validates the incoming
URLs. -/
def componentWillReceiveProps (defaultConfig : ServerConfig)
    (validate : String → String → DiscoveryResult)
    (newConfig : ServerConfig) (s : ComponentState) :
    List Event × Option ServerConfig :=
  if newConfig.hsUrl = s.hsUrl ∧ newConfig.isUrl = s.isUrl then ([], none)
  else validateAndApplyServer defaultConfig validate newConfig.hsUrl newConfig.isUrl

/-- `onHomeserverChange`: `this.setState({ hsUrl })` only. -/
def onHomeserverChange (value : String) : List Event := [.setHsUrl value]

/-- `onIdentityServerChange`: `this.setState({ isUrl })` only. -/
def onIdentityServerChange (value : String) : List Event := [.setIsUrl value]

/-- `async onSubmit(ev)`: awaits `validateServer()`; on the null sentinel
returns without calling `onAfterSubmit`; otherwise calls `onAfterSubmit`
when the prop is supplied.  `hasAfterSubmit` models whether the optional
`onAfterSubmit` prop was passed. -/
def onSubmit (defaultConfig : ServerConfig)
    (validate : String → String → DiscoveryResult)
    (hasAfterSubmit : Bool) (s : ComponentState) :
    List Event × Option ServerConfig :=
  let r := validateServer defaultConfig validate s
  match r.2 with
  | none => (r.1, none)
  | some cfg =>
    (r.1 ++ (if hasAfterSubmit then [.afterSubmit] else []), some cfg)

/-! ### Debounce timers

`this._hsTimeoutId` / `this._isTimeoutId` and the browser timer table.
Every timeout this component schedules runs `() => { this.validateServer(); }`,
so a pending timer is just its id. -/

/-- The component's timer fields together with the set of live (scheduled,
not yet fired, not yet cleared) timer ids and a fresh-id supply. -/
structure TimerWorld where
  hsTimeoutId : Option Nat
  isTimeoutId : Option Nat
  pending : List Nat
  nextId : Nat
  deriving DecidableEq, Repr

/-- A component that has never scheduled a timer. -/
def timersInit : TimerWorld :=
  { hsTimeoutId := none, isTimeoutId := none, pending := [], nextId := 0 }

/-- `_waitThenInvoke(existingTimeoutId, fn)`: clears the existing timeout
(if any) and schedules a fresh one, returning its id. -/
def waitThenInvoke (existingTimeoutId : Option Nat) (w : TimerWorld) :
    Nat × TimerWorld :=
  let remaining :=
    match existingTimeoutId with
    | some tid => w.pending.filter (fun x => x ≠ tid)
    | none => w.pending
  (w.nextId,
   { w with pending := remaining ++ [w.nextId], nextId := w.nextId + 1 })

/-- `onHomeserverBlur`: `this._hsTimeoutId = this._waitThenInvoke(this._hsTimeoutId, ...)`. -/
def onHomeserverBlur (w : TimerWorld) : TimerWorld :=
  let r := waitThenInvoke w.hsTimeoutId w
  { r.2 with hsTimeoutId := some r.1 }

/-- `onIdentityServerBlur`: `this._isTimeoutId = this._waitThenInvoke(this._isTimeoutId, ...)`. -/
def onIdentityServerBlur (w : TimerWorld) : TimerWorld :=
  let r := waitThenInvoke w.isTimeoutId w
  { r.2 with isTimeoutId := some r.1 }

/-- Once the delay elapses every live timer fires; each fires the scheduled
callback `() => { this.validateServer(); }` against the component state
current at that moment.  Returns the concatenated event trace. -/
def fireAllTimers (defaultConfig : ServerConfig)
    (validate : String → String → DiscoveryResult)
    (s : ComponentState) (w : TimerWorld) : List Event :=
  (w.pending.map (fun _ => (validateServer defaultConfig validate s).1)).flatten

/-! ### Overlapping validation attempts

The only suspension point of `validateAndApplyServer` is the `await` of the
collaborator call, which sits between the trigger segment (the
`setState({hsUrl, isUrl, busy: true, errorText: ""})` and the issuing of
the request) and the resolution segment (the events of the `try` tail or
the `catch` block).  Two overlapping slow-path attempts therefore
interleave as: trigger of the first, trigger of the second, then the two
resolution segments in either wall-clock order. -/

/-- Events a slow-path attempt performs before its `await` suspends. -/
def triggerSegment (hsUrl isUrl : String) : List Event :=
  [.setAll hsUrl isUrl true "", .collaboratorCall hsUrl isUrl]

/-- Events a slow-path attempt performs after its `await` settles with the
given outcome. -/
def resolveSegment : DiscoveryResult → List Event
  | .ok result => [.setBusyError false "", .configChange result]
  | .err e => [.logError e, .setBusyError false (catchMessage e)]

/-- The slow path is exactly trigger segment + resolution segment. -/
theorem validateAndApplyServer_slow_split (defaultConfig : ServerConfig)
    (validate : String → String → DiscoveryResult) (hsUrl isUrl : String)
    (h : ¬(defaultConfig.hsUrl = hsUrl ∧ defaultConfig.isUrl = isUrl)) :
    (validateAndApplyServer defaultConfig validate hsUrl isUrl).1 =
      triggerSegment hsUrl isUrl ++ resolveSegment (validate hsUrl isUrl) := by
  unfold validateAndApplyServer triggerSegment resolveSegment
  rw [if_neg h]
  cases validate hsUrl isUrl <;> simp

/-- The full trace of two overlapping slow-path attempts: attempt 1 is
triggered, attempt 2 is triggered while 1 is still awaiting, and then the
two collaborator promises settle; `firstSettlesFirst` says whether attempt
1's promise settles before attempt 2's. -/
def overlappedRun (a1 a2 : String × String) (o1 o2 : DiscoveryResult)
    (firstSettlesFirst : Bool) : List Event :=
  triggerSegment a1.1 a1.2 ++ triggerSegment a2.1 a2.2 ++
    (if firstSettlesFirst then resolveSegment o1 ++ resolveSegment o2
     else resolveSegment o2 ++ resolveSegment o1)

/-! ### Helper lemmas: the three branches of `validateAndApplyServer` -/

/-- Fast path: both URLs equal the default config. -/
theorem fastPath_eq (d : ServerConfig) (v : String → String → DiscoveryResult)
    (hs is : String) (h : d.hsUrl = hs ∧ d.isUrl = is) :
    validateAndApplyServer d v hs is =
      ([.setBusyError false "", .configChange d], some d) := by
  unfold validateAndApplyServer
  rw [if_pos h]

/-- Slow path, collaborator succeeds. -/
theorem slowPath_ok_eq (d : ServerConfig) (v : String → String → DiscoveryResult)
    (hs is : String) (r : ServerConfig)
    (h : ¬(d.hsUrl = hs ∧ d.isUrl = is)) (hr : v hs is = .ok r) :
    validateAndApplyServer d v hs is =
      ([.setAll hs is true "", .collaboratorCall hs is,
        .setBusyError false "", .configChange r], some r) := by
  unfold validateAndApplyServer
  rw [if_neg h]
  simp [hr]

/-- Slow path, collaborator fails. -/
theorem slowPath_err_eq (d : ServerConfig) (v : String → String → DiscoveryResult)
    (hs is : String) (e : DiscoveryError)
    (h : ¬(d.hsUrl = hs ∧ d.isUrl = is)) (he : v hs is = .err e) :
    validateAndApplyServer d v hs is =
      ([.setAll hs is true "", .collaboratorCall hs is,
        .logError e, .setBusyError false (catchMessage e)], none) := by
  unfold validateAndApplyServer
  rw [if_neg h]
  simp [he]

/-! ### Concrete fixtures used by witnesses and counterexamples -/

/-- A concrete default config (`SdkConfig`'s validated server config). -/
def dConf : ServerConfig :=
  { hsUrl := "https://matrix.org", isUrl := "https://vector.im" }

/-- A concrete config the collaborator may resolve with. -/
def okConf : ServerConfig :=
  { hsUrl := "https://custom.example", isUrl := "https://is.example" }

/-- An oracle whose promise always resolves with `okConf`. -/
def vOk : String → String → DiscoveryResult := fun _ _ => .ok okConf

/-- An oracle whose promise always rejects with a translated message. -/
def vBad : String → String → DiscoveryResult :=
  fun _ _ => .err { translatedMessage := some "Bad server" }

/-- An oracle whose promise always rejects with a bare error. -/
def vBare : String → String → DiscoveryResult :=
  fun _ _ => .err { translatedMessage := none }

/-- An oracle whose promise always rejects with a present-but-empty
translated message. -/
def vEmptyMsg : String → String → DiscoveryResult :=
  fun _ _ => .err { translatedMessage := some "" }

/-- C1: when `(hsUrl, isUrl)` equals `(DefaultConfig.hsUrl, DefaultConfig.isUrl)`
on both fields, `validateAndApplyServer` makes no collaborator call, sets
`busy := false` and `errorText := ""` (touching no other state field),
invokes the owner callback exactly once with the default config, and
returns the default config. -/
theorem C1_default_fast_path (d : ServerConfig)
    (v : String → String → DiscoveryResult) (hs is : String)
    (h : d.hsUrl = hs ∧ d.isUrl = is) :
    validateAndApplyServer d v hs is =
      ([.setBusyError false "", .configChange d], some d)
    ∧ collaboratorCalls (validateAndApplyServer d v hs is).1 = []
    ∧ configChanges (validateAndApplyServer d v hs is).1 = [d]
    ∧ ∀ s, applyTrace s (validateAndApplyServer d v hs is).1 =
        { s with busy := false, errorText := "" } := by
  have h1 := fastPath_eq d v hs is h
  refine ⟨h1, ?_, ?_, fun s => ?_⟩ <;>
    simp [h1, collaboratorCalls, configChanges, applyTrace, applyEvent]

/-- Witness for C1 at the concrete default config. -/
theorem C1_default_fast_path_w :
    collaboratorCalls
        (validateAndApplyServer dConf vOk dConf.hsUrl dConf.isUrl).1 = []
    ∧ configChanges
        (validateAndApplyServer dConf vOk dConf.hsUrl dConf.isUrl).1 = [dConf]
    ∧ applyTrace (initialState dConf)
        (validateAndApplyServer dConf vOk dConf.hsUrl dConf.isUrl).1 =
        { initialState dConf with busy := false, errorText := "" } := by
  have h := C1_default_fast_path dConf vOk dConf.hsUrl dConf.isUrl ⟨rfl, rfl⟩
  exact ⟨h.2.1, h.2.2.1, h.2.2.2 (initialState dConf)⟩

/-- C2: on any non-default pair the attempt first performs
`setState({hsUrl, isUrl, busy: true, errorText: ""})` and then calls the
collaborator exactly once with exactly those URLs; when the collaborator
succeeds the attempt ends with `busy := false, errorText := ""`, invokes
the owner callback exactly once with the resulting config and returns it;
when the collaborator fails the owner callback is never invoked. -/
theorem C2_slow_path_success (d : ServerConfig)
    (v : String → String → DiscoveryResult) (hs is : String)
    (h : ¬(d.hsUrl = hs ∧ d.isUrl = is)) :
    (validateAndApplyServer d v hs is).1.take 2 =
      [.setAll hs is true "", .collaboratorCall hs is]
    ∧ collaboratorCalls (validateAndApplyServer d v hs is).1 = [(hs, is)]
    ∧ (∀ r, v hs is = .ok r →
        validateAndApplyServer d v hs is =
          ([.setAll hs is true "", .collaboratorCall hs is,
            .setBusyError false "", .configChange r], some r)
        ∧ configChanges (validateAndApplyServer d v hs is).1 = [r]
        ∧ ∀ s, applyTrace s (validateAndApplyServer d v hs is).1 =
            { busy := false, errorText := "", hsUrl := hs, isUrl := is })
    ∧ (∀ e, v hs is = .err e →
        configChanges (validateAndApplyServer d v hs is).1 = []) := by
  cases hv : v hs is with
  | ok r =>
    have h1 := slowPath_ok_eq d v hs is r h hv
    refine ⟨?_, ?_, fun r' hr' => ?_, fun e he => ?_⟩
    · simp [h1]
    · simp [h1, collaboratorCalls]
    · cases hr'
      refine ⟨h1, ?_, fun s => ?_⟩ <;>
        simp [h1, configChanges, applyTrace, applyEvent]
    · cases he
  | err e =>
    have h1 := slowPath_err_eq d v hs is e h hv
    refine ⟨?_, ?_, fun r' hr' => ?_, fun e' he' => ?_⟩
    · simp [h1]
    · simp [h1, collaboratorCalls]
    · cases hr'
    · simp [h1, configChanges]

/-- Witness for C2 at a concrete custom pair with a resolving oracle. -/
theorem C2_slow_path_success_w :
    collaboratorCalls
        (validateAndApplyServer dConf vOk "https://custom.example"
          "https://is.example").1 =
      [("https://custom.example", "https://is.example")]
    ∧ configChanges
        (validateAndApplyServer dConf vOk "https://custom.example"
          "https://is.example").1 = [okConf]
    ∧ (validateAndApplyServer dConf vOk "https://custom.example"
        "https://is.example").2 = some okConf := by
  have h := C2_slow_path_success dConf vOk "https://custom.example"
    "https://is.example" (by decide)
  have hok := h.2.2.1 okConf rfl
  exact ⟨h.2.1, hok.2.1, by rw [hok.1]⟩

/-- C3 counterexample: the catch block tests `e.translatedMessage` for
JavaScript truthiness, so an error whose `translatedMessage` field is
present but equal to `""` yields the generic fallback text, not the
(present) translated message — refuting the claim that presence of the
field alone selects it. -/
theorem C3_truthiness_counterexample :
    vEmptyMsg "https://custom.example" "https://is.example" =
      .err { translatedMessage := some "" }
    ∧ (applyTrace (initialState dConf)
        (validateAndApplyServer dConf vEmptyMsg "https://custom.example"
          "https://is.example").1).errorText = unableToValidateMsg
    ∧ unableToValidateMsg ≠ "" := by
  refine ⟨rfl, by decide, by decide⟩

/-- C3 (amended): on collaborator failure the attempt logs the raw error,
sets `busy := false` and `errorText` to the error's translated message when
that field is present *and non-empty* (otherwise the generic fallback
"Unable to validate homeserver/identity server"), never invokes the owner
callback, returns the null sentinel, and throws nothing (it returns
normally on every failure). -/
theorem C3_failure_amended (d : ServerConfig)
    (v : String → String → DiscoveryResult) (hs is : String)
    (e : DiscoveryError)
    (h : ¬(d.hsUrl = hs ∧ d.isUrl = is)) (he : v hs is = .err e) :
    validateAndApplyServer d v hs is =
      ([.setAll hs is true "", .collaboratorCall hs is,
        .logError e, .setBusyError false (catchMessage e)], none)
    ∧ loggedErrors (validateAndApplyServer d v hs is).1 = [e]
    ∧ configChanges (validateAndApplyServer d v hs is).1 = []
    ∧ (∀ m, e.translatedMessage = some m → m ≠ "" → catchMessage e = m)
    ∧ (e.translatedMessage = none → catchMessage e = unableToValidateMsg)
    ∧ (e.translatedMessage = some "" → catchMessage e = unableToValidateMsg)
    ∧ (∀ s, applyTrace s (validateAndApplyServer d v hs is).1 =
        { busy := false, errorText := catchMessage e,
          hsUrl := hs, isUrl := is }) := by
  have h1 := slowPath_err_eq d v hs is e h he
  refine ⟨h1, ?_, ?_, fun m hm hne => ?_, fun hm => ?_, fun hm => ?_,
    fun s => ?_⟩
  · simp [h1, loggedErrors]
  · simp [h1, configChanges]
  · simp [catchMessage, hm, hne]
  · simp [catchMessage, hm]
  · simp [catchMessage, hm]
  · simp [h1, applyTrace, applyEvent]

/-- Witness for C3 (amended) with a concrete translated failure. -/
theorem C3_failure_amended_w :
    configChanges
        (validateAndApplyServer dConf vBad "https://custom.example"
          "https://is.example").1 = []
    ∧ loggedErrors
        (validateAndApplyServer dConf vBad "https://custom.example"
          "https://is.example").1 = [{ translatedMessage := some "Bad server" }]
    ∧ applyTrace (initialState dConf)
        (validateAndApplyServer dConf vBad "https://custom.example"
          "https://is.example").1 =
        { busy := false, errorText := "Bad server",
          hsUrl := "https://custom.example", isUrl := "https://is.example" } := by
  have h := C3_failure_amended dConf vBad "https://custom.example"
    "https://is.example" { translatedMessage := some "Bad server" }
    (by decide) rfl
  refine ⟨h.2.2.1, h.2.1, ?_⟩
  have h7 := h.2.2.2.2.2.2 (initialState dConf)
  rw [show catchMessage { translatedMessage := some "Bad server" } =
    "Bad server" from rfl] at h7
  exact h7

/-- The `(busy, errorText)` an attempt's resolution leaves behind, as a
function of how its collaborator promise settled. -/
def settledErrorText : DiscoveryResult → String
  | .ok _ => ""
  | .err e => catchMessage e

/-- C4 counterexample: attempt 1 (custom pair 1, rejecting with
"Bad server") is triggered, attempt 2 (custom pair 2, resolving) is
triggered while 1 is awaiting, attempt 2's promise settles first and
attempt 1's last.  The final `errorText` is "Bad server" — attempt 1's
outcome — although attempt 2 is the most recently triggered attempt and
its outcome alone would leave `errorText = ""`.  The first two conjuncts
check the interleaving segments against `validateAndApplyServer` itself:
nothing in the code sequences attempts, so the stale resolution wins. -/
theorem C4_stale_overwrite_counterexample :
    validateAndApplyServer dConf vBad "https://h1.example" "https://i1.example" =
      (triggerSegment "https://h1.example" "https://i1.example" ++
        resolveSegment (.err { translatedMessage := some "Bad server" }), none)
    ∧ validateAndApplyServer dConf vOk "https://h2.example" "https://i2.example" =
      (triggerSegment "https://h2.example" "https://i2.example" ++
        resolveSegment (.ok okConf), some okConf)
    ∧ (applyTrace (initialState dConf)
        (overlappedRun ("https://h1.example", "https://i1.example")
          ("https://h2.example", "https://i2.example")
          (.err { translatedMessage := some "Bad server" }) (.ok okConf)
          false)).errorText = "Bad server"
    ∧ (applyTrace (initialState dConf)
        (triggerSegment "https://h2.example" "https://i2.example" ++
          resolveSegment (.ok okConf))).errorText = ""
    ∧ ("Bad server" : String) ≠ "" := by
  refine ⟨by decide, by decide, by decide, by decide, by decide⟩

/-- C4 (amended): with no attempt sequencing in the code, after two
overlapping slow-path attempts both settle, the user-visible
`(busy, errorText)` reflects the attempt whose collaborator promise
settles *last* in wall-clock order — not necessarily the most recently
triggered one — and the last owner-callback invocation carries the
last-settling attempt's config whenever that attempt succeeded. -/
theorem C4_last_settlement_wins_amended (a1 a2 : String × String)
    (o1 o2 : DiscoveryResult) (b : Bool) (s : ComponentState) :
    (applyTrace s (overlappedRun a1 a2 o1 o2 b)).busy = false
    ∧ (applyTrace s (overlappedRun a1 a2 o1 o2 b)).errorText =
        settledErrorText (if b then o2 else o1)
    ∧ (∀ c, (if b then o2 else o1) = .ok c →
        (configChanges (overlappedRun a1 a2 o1 o2 b)).getLast? = some c) := by
  cases b <;> cases o1 <;> cases o2 <;>
    simp [overlappedRun, triggerSegment, resolveSegment, applyTrace,
      applyEvent, settledErrorText, configChanges]

/-- Witness for C4 (amended): attempt 1 settles last and succeeds. -/
theorem C4_last_settlement_wins_amended_w :
    (applyTrace (initialState dConf)
      (overlappedRun ("https://h1.example", "https://i1.example")
        ("https://h2.example", "https://i2.example")
        (.ok okConf) (.err { translatedMessage := some "Bad server" })
        false)).busy = false
    ∧ (applyTrace (initialState dConf)
        (overlappedRun ("https://h1.example", "https://i1.example")
          ("https://h2.example", "https://i2.example")
          (.ok okConf) (.err { translatedMessage := some "Bad server" })
          false)).errorText = ""
    ∧ (configChanges
        (overlappedRun ("https://h1.example", "https://i1.example")
          ("https://h2.example", "https://i2.example")
          (.ok okConf) (.err { translatedMessage := some "Bad server" })
          false)).getLast? = some okConf := by
  have h := C4_last_settlement_wins_amended
    ("https://h1.example", "https://i1.example")
    ("https://h2.example", "https://i2.example")
    (.ok okConf) (.err { translatedMessage := some "Bad server" })
    false (initialState dConf)
  exact ⟨h.1, h.2.1, h.2.2 okConf rfl⟩

/-! ### The busy/errorText invariant -/

/-- The invariant of `this.state`: while busy, no error text is shown. -/
def Inv (s : ComponentState) : Prop := s.busy = true → s.errorText = ""

/-- Folding a trace whose every event preserves `Inv` preserves `Inv`. -/
theorem inv_applyTrace_of_forall {t : List Event}
    (ht : ∀ e ∈ t, ∀ s, Inv s → Inv (applyEvent s e)) :
    ∀ s, Inv s → Inv (applyTrace s t) := by
  induction t with
  | nil => intro s hs; exact hs
  | cons e t ih =>
    intro s hs
    have h1 : Inv (applyEvent s e) := ht e (List.mem_cons_self e t) s hs
    have ht' : ∀ e ∈ t, ∀ s, Inv s → Inv (applyEvent s e) :=
      fun e he => ht e (List.mem_cons_of_mem _ he)
    simpa [applyTrace] using ih ht' (applyEvent s e) h1

/-- Every event `validateAndApplyServer` emits preserves the invariant:
each `setState` writing `busy: true` also writes `errorText: ""`, and each
other `setState` writes `busy: false` or leaves both fields alone. -/
theorem validate_events_inv (d : ServerConfig)
    (v : String → String → DiscoveryResult) (hs is : String) :
    ∀ e ∈ (validateAndApplyServer d v hs is).1, ∀ s, Inv s →
      Inv (applyEvent s e) := by
  by_cases h : d.hsUrl = hs ∧ d.isUrl = is
  · rw [fastPath_eq d v hs is h]
    intro e he s hs'
    simp only [List.mem_cons, List.not_mem_nil, or_false] at he
    rcases he with rfl | rfl
    · simp [applyEvent, Inv]
    · exact hs'
  · cases hv : v hs is with
    | ok r =>
      rw [slowPath_ok_eq d v hs is r h hv]
      intro e he s hs'
      simp only [List.mem_cons, List.not_mem_nil, or_false] at he
      rcases he with rfl | rfl | rfl | rfl
      · simp [applyEvent, Inv]
      · exact hs'
      · simp [applyEvent, Inv]
      · exact hs'
    | err e0 =>
      rw [slowPath_err_eq d v hs is e0 h hv]
      intro e he s hs'
      simp only [List.mem_cons, List.not_mem_nil, or_false] at he
      rcases he with rfl | rfl | rfl | rfl
      · simp [applyEvent, Inv]
      · exact hs'
      · exact hs'
      · simp [applyEvent, Inv]

/-- Every event `componentWillReceiveProps` emits preserves the invariant. -/
theorem cwrp_events_inv (d : ServerConfig)
    (v : String → String → DiscoveryResult) (c : ServerConfig)
    (s0 : ComponentState) :
    ∀ e ∈ (componentWillReceiveProps d v c s0).1, ∀ s, Inv s →
      Inv (applyEvent s e) := by
  unfold componentWillReceiveProps
  by_cases h : c.hsUrl = s0.hsUrl ∧ c.isUrl = s0.isUrl
  · rw [if_pos h]
    intro e he
    simp at he
  · rw [if_neg h]
    exact validate_events_inv d v c.hsUrl c.isUrl

/-- Every event `onSubmit` emits preserves the invariant. -/
theorem onSubmit_events_inv (d : ServerConfig)
    (v : String → String → DiscoveryResult) (hA : Bool)
    (s0 : ComponentState) :
    ∀ e ∈ (onSubmit d v hA s0).1, ∀ s, Inv s → Inv (applyEvent s e) := by
  unfold onSubmit validateServer
  intro e he s hs'
  rcases hval : validateAndApplyServer d v s0.hsUrl s0.isUrl with ⟨t, res⟩
  rw [hval] at he
  have ht : ∀ e ∈ t, ∀ s, Inv s → Inv (applyEvent s e) := by
    have h0 := validate_events_inv d v s0.hsUrl s0.isUrl
    rw [hval] at h0
    exact h0
  cases res with
  | none =>
    simp at he
    exact ht e he s hs'
  | some cfg =>
    simp [List.mem_append] at he
    rcases he with he | he
    · exact ht e he s hs'
    · cases hA <;> simp at he
      subst he
      exact hs'

/-- C5: `busy == true` implies `errorText == ""` in every reachable state:
the constructor establishes the invariant and every prefix of the event
trace of every operation (validation with its fast path, slow path,
success and failure branches; field changes; external config changes;
submit) preserves it — in particular the only `setState` that sets
`busy: true` simultaneously writes `errorText: ""`. -/
theorem C5_busy_implies_no_error :
    (∀ cfg, Inv (initialState cfg))
    ∧ (∀ d v hs is s n, Inv s →
        Inv (applyTrace s ((validateAndApplyServer d v hs is).1.take n)))
    ∧ (∀ val s n, Inv s →
        Inv (applyTrace s ((onHomeserverChange val).take n)))
    ∧ (∀ val s n, Inv s →
        Inv (applyTrace s ((onIdentityServerChange val).take n)))
    ∧ (∀ d v c s n, Inv s →
        Inv (applyTrace s ((componentWillReceiveProps d v c s).1.take n)))
    ∧ (∀ d v hA s n, Inv s →
        Inv (applyTrace s ((onSubmit d v hA s).1.take n))) := by
  refine ⟨?_, ?_, ?_, ?_, ?_, ?_⟩
  · intro cfg
    simp [initialState, Inv]
  · intro d v hs is s n hs'
    exact inv_applyTrace_of_forall
      (fun e he => validate_events_inv d v hs is e (List.take_subset n _ he))
      s hs'
  · intro val s n hs'
    refine inv_applyTrace_of_forall ?_ s hs'
    intro e he s2 hs2
    have hm : e ∈ onHomeserverChange val := List.take_subset n _ he
    simp [onHomeserverChange] at hm
    subst hm
    exact hs2
  · intro val s n hs'
    refine inv_applyTrace_of_forall ?_ s hs'
    intro e he s2 hs2
    have hm : e ∈ onIdentityServerChange val := List.take_subset n _ he
    simp [onIdentityServerChange] at hm
    subst hm
    exact hs2
  · intro d v c s n hs'
    exact inv_applyTrace_of_forall
      (fun e he => cwrp_events_inv d v c s e (List.take_subset n _ he))
      s hs'
  · intro d v hA s n hs'
    exact inv_applyTrace_of_forall
      (fun e he => onSubmit_events_inv d v hA s e (List.take_subset n _ he))
      s hs'

/-- Witness for C5: the invariant holds initially and after the first two
events (including the intermediate `busy: true` write) of a concrete
slow-path attempt. -/
theorem C5_busy_implies_no_error_w :
    Inv (initialState dConf)
    ∧ Inv (applyTrace (initialState okConf)
        ((validateAndApplyServer dConf vOk "https://custom.example"
          "https://is.example").1.take 1))
    ∧ Inv (applyTrace (initialState okConf)
        ((validateAndApplyServer dConf vOk "https://custom.example"
          "https://is.example").1.take 4)) := by
  have h := C5_busy_implies_no_error
  exact ⟨h.1 dConf,
    h.2.1 dConf vOk "https://custom.example" "https://is.example"
      (initialState okConf) 1 (h.1 okConf),
    h.2.1 dConf vOk "https://custom.example" "https://is.example"
      (initialState okConf) 4 (h.1 okConf)⟩

/-- The collaborator calls of one `validateServer` run: none on the fast
path, exactly one with the current edit URLs otherwise. -/
theorem collaboratorCalls_validateServer (d : ServerConfig)
    (v : String → String → DiscoveryResult) (s : ComponentState) :
    collaboratorCalls (validateServer d v s).1 =
      if d.hsUrl = s.hsUrl ∧ d.isUrl = s.isUrl then []
      else [(s.hsUrl, s.isUrl)] := by
  unfold validateServer
  by_cases h : d.hsUrl = s.hsUrl ∧ d.isUrl = s.isUrl
  · rw [fastPath_eq d v s.hsUrl s.isUrl h, if_pos h]
    simp [collaboratorCalls]
  · rw [if_neg h]
    cases hv : v s.hsUrl s.isUrl with
    | ok r =>
      rw [slowPath_ok_eq d v s.hsUrl s.isUrl r h hv]
      simp [collaboratorCalls]
    | err e =>
      rw [slowPath_err_eq d v s.hsUrl s.isUrl e h hv]
      simp [collaboratorCalls]

/-- C6 counterexample: blur the homeserver field twice in a row with the
edit state equal to the default config.  The second blur does cancel the
first timer and exactly one timer survives — but when it fires,
`validateServer` takes the fast path, so the collaborator is invoked zero
times, not "exactly one". -/
theorem C6_default_zero_calls_counterexample :
    (onHomeserverBlur (onHomeserverBlur timersInit)).pending.length = 1
    ∧ collaboratorCalls
        (fireAllTimers dConf vOk (initialState dConf)
          (onHomeserverBlur (onHomeserverBlur timersInit))) = []
    ∧ (0 : Nat) ≠ 1 := by
  refine ⟨by decide, by decide, by decide⟩

/-- C6 (amended): each field's blur cancels that same field's previous
pending timer (if any), schedules a fresh one and leaves the other field's
timer untouched; blurring the same field twice before the delay elapses
leaves exactly one live timer, whose firing runs `validateServer` once —
hence at most one collaborator invocation: exactly one when the edit state
differs from the default config's URLs and none when it equals them. -/
theorem C6_debounce_amended :
    (∀ w : TimerWorld, ∀ tid, w.hsTimeoutId = some tid → tid < w.nextId →
      tid ∉ (onHomeserverBlur w).pending
      ∧ (onHomeserverBlur w).hsTimeoutId = some w.nextId
      ∧ w.nextId ∈ (onHomeserverBlur w).pending
      ∧ (onHomeserverBlur w).isTimeoutId = w.isTimeoutId)
    ∧ (∀ w : TimerWorld, ∀ tid, w.isTimeoutId = some tid → tid < w.nextId →
      tid ∉ (onIdentityServerBlur w).pending
      ∧ (onIdentityServerBlur w).isTimeoutId = some w.nextId
      ∧ w.nextId ∈ (onIdentityServerBlur w).pending
      ∧ (onIdentityServerBlur w).hsTimeoutId = w.hsTimeoutId)
    ∧ (∀ w : TimerWorld, w.pending = [] →
        ∀ (d : ServerConfig) (v : String → String → DiscoveryResult)
          (s : ComponentState),
        (onHomeserverBlur (onHomeserverBlur w)).pending.length = 1
        ∧ fireAllTimers d v s (onHomeserverBlur (onHomeserverBlur w)) =
            (validateServer d v s).1
        ∧ (¬(d.hsUrl = s.hsUrl ∧ d.isUrl = s.isUrl) →
            collaboratorCalls
              (fireAllTimers d v s (onHomeserverBlur (onHomeserverBlur w))) =
              [(s.hsUrl, s.isUrl)])
        ∧ (d.hsUrl = s.hsUrl ∧ d.isUrl = s.isUrl →
            collaboratorCalls
              (fireAllTimers d v s (onHomeserverBlur (onHomeserverBlur w))) =
              []))
    ∧ (∀ w : TimerWorld, w.pending = [] →
        ∀ (d : ServerConfig) (v : String → String → DiscoveryResult)
          (s : ComponentState),
        (onIdentityServerBlur (onIdentityServerBlur w)).pending.length = 1
        ∧ fireAllTimers d v s (onIdentityServerBlur (onIdentityServerBlur w)) =
            (validateServer d v s).1
        ∧ (¬(d.hsUrl = s.hsUrl ∧ d.isUrl = s.isUrl) →
            collaboratorCalls
              (fireAllTimers d v s
                (onIdentityServerBlur (onIdentityServerBlur w))) =
              [(s.hsUrl, s.isUrl)])
        ∧ (d.hsUrl = s.hsUrl ∧ d.isUrl = s.isUrl →
            collaboratorCalls
              (fireAllTimers d v s
                (onIdentityServerBlur (onIdentityServerBlur w))) =
              [])) := by
  refine ⟨?_, ?_, ?_, ?_⟩
  · intro w tid htid hlt
    refine ⟨?_, ?_, ?_, ?_⟩ <;>
      simp [onHomeserverBlur, waitThenInvoke, htid, List.mem_append,
        List.mem_filter, Nat.ne_of_lt hlt]
  · intro w tid htid hlt
    refine ⟨?_, ?_, ?_, ?_⟩ <;>
      simp [onIdentityServerBlur, waitThenInvoke, htid, List.mem_append,
        List.mem_filter, Nat.ne_of_lt hlt]
  · intro w hp d v s
    have hdouble :
        (onHomeserverBlur (onHomeserverBlur w)).pending = [w.nextId + 1] := by
      cases hh : w.hsTimeoutId <;>
        simp [onHomeserverBlur, waitThenInvoke, hp, hh]
    refine ⟨?_, ?_, ?_, ?_⟩
    · rw [hdouble]
      rfl
    · simp [fireAllTimers, hdouble]
    · intro h
      simp [fireAllTimers, hdouble, collaboratorCalls_validateServer, h]
    · intro h
      simp [fireAllTimers, hdouble, collaboratorCalls_validateServer, h]
  · intro w hp d v s
    have hdouble :
        (onIdentityServerBlur (onIdentityServerBlur w)).pending =
          [w.nextId + 1] := by
      cases hh : w.isTimeoutId <;>
        simp [onIdentityServerBlur, waitThenInvoke, hp, hh]
    refine ⟨?_, ?_, ?_, ?_⟩
    · rw [hdouble]
      rfl
    · simp [fireAllTimers, hdouble]
    · intro h
      simp [fireAllTimers, hdouble, collaboratorCalls_validateServer, h]
    · intro h
      simp [fireAllTimers, hdouble, collaboratorCalls_validateServer, h]

/-- Witness for C6 (amended) at concrete worlds and inputs. -/
theorem C6_debounce_amended_w :
    (0 ∉ (onHomeserverBlur
        { hsTimeoutId := some 0, isTimeoutId := none,
          pending := [0], nextId := 1 }).pending
      ∧ (onHomeserverBlur
          { hsTimeoutId := some 0, isTimeoutId := none,
            pending := [0], nextId := 1 }).hsTimeoutId = some 1)
    ∧ (onHomeserverBlur (onHomeserverBlur timersInit)).pending.length = 1
    ∧ collaboratorCalls
        (fireAllTimers dConf vOk (initialState okConf)
          (onHomeserverBlur (onHomeserverBlur timersInit))) =
        [("https://custom.example", "https://is.example")] := by
  have ha := (C6_debounce_amended.1
    { hsTimeoutId := some 0, isTimeoutId := none, pending := [0], nextId := 1 }
    0 rfl (by decide))
  have hb := C6_debounce_amended.2.2.1 timersInit rfl dConf vOk
    (initialState okConf)
  exact ⟨⟨ha.1, ha.2.1⟩, hb.1, hb.2.2.1 (by decide)⟩

/-- A component state whose edits differ from both `dConf` and `okConf`'s
identity URL only in being user-typed custom values. -/
def editedState : ComponentState :=
  { busy := false, errorText := "",
    hsUrl := "https://custom.example", isUrl := "https://is.example" }

/-- C7 counterexample: the incoming external config equals the default
config and differs from the current edits, so the equality guard does not
fire and validation runs — but the fast path writes only `busy` and
`errorText`, so the new config's URLs are *not* adopted into
`state.hsUrl`/`state.isUrl`, refuting the unconditional adoption the claim
states. -/
theorem C7_no_adoption_counterexample :
    ¬(dConf.hsUrl = editedState.hsUrl ∧ dConf.isUrl = editedState.isUrl)
    ∧ (applyTrace editedState
        (componentWillReceiveProps dConf vOk dConf editedState).1).hsUrl =
        "https://custom.example"
    ∧ (applyTrace editedState
        (componentWillReceiveProps dConf vOk dConf editedState).1).isUrl =
        "https://is.example"
    ∧ dConf.hsUrl ≠ "https://custom.example" := by
  refine ⟨by decide, by decide, by decide, by decide⟩

/-- C7 (amended): on an external configuration change, if the new config's
URLs both equal the current edit state the operation is a no-op; otherwise
validation is immediately triggered with the new values, and the new URLs
are adopted into the edit state exactly when they differ from the default
config's URLs (slow path) — when they equal the default, only `busy` and
`errorText` are written. -/
theorem C7_external_change_amended (d : ServerConfig)
    (v : String → String → DiscoveryResult) (c : ServerConfig)
    (s : ComponentState) :
    (c.hsUrl = s.hsUrl ∧ c.isUrl = s.isUrl →
      componentWillReceiveProps d v c s = ([], none))
    ∧ (¬(c.hsUrl = s.hsUrl ∧ c.isUrl = s.isUrl) →
        componentWillReceiveProps d v c s =
          validateAndApplyServer d v c.hsUrl c.isUrl
        ∧ (¬(d.hsUrl = c.hsUrl ∧ d.isUrl = c.isUrl) →
            (applyTrace s (componentWillReceiveProps d v c s).1).hsUrl =
              c.hsUrl
            ∧ (applyTrace s (componentWillReceiveProps d v c s).1).isUrl =
              c.isUrl)
        ∧ (d.hsUrl = c.hsUrl ∧ d.isUrl = c.isUrl →
            applyTrace s (componentWillReceiveProps d v c s).1 =
              { s with busy := false, errorText := "" })) := by
  constructor
  · intro h
    unfold componentWillReceiveProps
    rw [if_pos h]
  · intro hne
    have hc : componentWillReceiveProps d v c s =
        validateAndApplyServer d v c.hsUrl c.isUrl := by
      unfold componentWillReceiveProps
      rw [if_neg hne]
    refine ⟨hc, ?_, ?_⟩
    · intro hd
      rw [hc]
      cases hv : v c.hsUrl c.isUrl with
      | ok r =>
        rw [slowPath_ok_eq d v c.hsUrl c.isUrl r hd hv]
        constructor <;> simp [applyTrace, applyEvent]
      | err e =>
        rw [slowPath_err_eq d v c.hsUrl c.isUrl e hd hv]
        constructor <;> simp [applyTrace, applyEvent]
    · intro hd
      rw [hc, fastPath_eq d v c.hsUrl c.isUrl hd]
      simp [applyTrace, applyEvent]

/-- Witness for C7 (amended): a custom incoming config differing from both
the edits and the default is adopted and validated. -/
theorem C7_external_change_amended_w :
    componentWillReceiveProps dConf vOk okConf (initialState dConf) =
      validateAndApplyServer dConf vOk okConf.hsUrl okConf.isUrl
    ∧ (applyTrace (initialState dConf)
        (componentWillReceiveProps dConf vOk okConf (initialState dConf)).1).hsUrl =
        okConf.hsUrl
    ∧ (applyTrace (initialState dConf)
        (componentWillReceiveProps dConf vOk okConf (initialState dConf)).1).isUrl =
        okConf.isUrl := by
  have h := (C7_external_change_amended dConf vOk okConf
    (initialState dConf)).2 (by decide)
  have ha := h.2.1 (by decide)
  exact ⟨h.1, ha.1, ha.2⟩

/-- `validateAndApplyServer` never invokes `onAfterSubmit` itself. -/
theorem afterSubmitCount_validate (d : ServerConfig)
    (v : String → String → DiscoveryResult) (hs is : String) :
    afterSubmitCount (validateAndApplyServer d v hs is).1 = 0 := by
  by_cases h : d.hsUrl = hs ∧ d.isUrl = is
  · rw [fastPath_eq d v hs is h]
    simp [afterSubmitCount]
  · cases hv : v hs is with
    | ok r =>
      rw [slowPath_ok_eq d v hs is r h hv]
      simp [afterSubmitCount]
    | err e =>
      rw [slowPath_err_eq d v hs is e h hv]
      simp [afterSubmitCount]

/-- `afterSubmitCount` adds over concatenation. -/
theorem afterSubmitCount_append (t1 t2 : List Event) :
    afterSubmitCount (t1 ++ t2) = afterSubmitCount t1 + afterSubmitCount t2 := by
  induction t1 with
  | nil => simp [afterSubmitCount]
  | cons e t ih =>
    cases e <;> simp [afterSubmitCount, ih]
    omega

/-- C8: submit awaits `validateServer` on the current edit state and
propagates its result; on the null sentinel it aborts and `onAfterSubmit`
is never invoked; on a config it invokes `onAfterSubmit` exactly once when
that prop is supplied (and not at all when it is not). -/
theorem C8_submit_gate (d : ServerConfig)
    (v : String → String → DiscoveryResult) (hA : Bool)
    (s : ComponentState) :
    (onSubmit d v hA s).2 = (validateServer d v s).2
    ∧ ((validateServer d v s).2 = none →
        onSubmit d v hA s = ((validateServer d v s).1, none)
        ∧ afterSubmitCount (onSubmit d v hA s).1 = 0)
    ∧ (∀ cfg, (validateServer d v s).2 = some cfg →
        (hA = true → afterSubmitCount (onSubmit d v hA s).1 = 1)
        ∧ (hA = false → afterSubmitCount (onSubmit d v hA s).1 = 0)) := by
  have hz : afterSubmitCount (validateServer d v s).1 = 0 :=
    afterSubmitCount_validate d v s.hsUrl s.isUrl
  unfold onSubmit
  rcases hval : validateServer d v s with ⟨t, res⟩
  rw [hval] at hz
  cases res with
  | none =>
    refine ⟨rfl, fun _ => ⟨rfl, hz⟩, fun cfg hcfg => ?_⟩
    simp at hcfg
  | some cfg0 =>
    refine ⟨rfl, fun hnone => ?_, fun cfg hcfg => ⟨fun hA1 => ?_, fun hA0 => ?_⟩⟩
    · simp at hnone
    · subst hA1
      simp [afterSubmitCount_append, hz, afterSubmitCount]
    · subst hA0
      simp [afterSubmitCount_append, hz, afterSubmitCount]

/-- Witness for C8: a successful submit with `onAfterSubmit` supplied
invokes it once; a failing submit invokes it zero times. -/
theorem C8_submit_gate_w :
    (validateServer dConf vOk editedState).2 = some okConf
    ∧ afterSubmitCount (onSubmit dConf vOk true editedState).1 = 1
    ∧ (validateServer dConf vBad editedState).2 = none
    ∧ afterSubmitCount (onSubmit dConf vBad true editedState).1 = 0 := by
  have hok := C8_submit_gate dConf vOk true editedState
  have hbad := C8_submit_gate dConf vBad true editedState
  have h1 : (validateServer dConf vOk editedState).2 = some okConf := by decide
  have h2 : (validateServer dConf vBad editedState).2 = none := by decide
  exact ⟨h1, (hok.2.2 okConf h1).1 rfl, h2, ((hbad.2.1 h2).2)⟩

/-- C9: a field-change event updates only its own field of the edit state,
leaves the other field, `busy` and `errorText` unchanged, and performs no
validation, collaborator call or callback. -/
theorem C9_field_change (val : String) (s : ComponentState) :
    onHomeserverChange val = [.setHsUrl val]
    ∧ applyTrace s (onHomeserverChange val) = { s with hsUrl := val }
    ∧ collaboratorCalls (onHomeserverChange val) = []
    ∧ configChanges (onHomeserverChange val) = []
    ∧ (applyTrace s (onHomeserverChange val)).isUrl = s.isUrl
    ∧ (applyTrace s (onHomeserverChange val)).busy = s.busy
    ∧ (applyTrace s (onHomeserverChange val)).errorText = s.errorText
    ∧ onIdentityServerChange val = [.setIsUrl val]
    ∧ applyTrace s (onIdentityServerChange val) = { s with isUrl := val }
    ∧ collaboratorCalls (onIdentityServerChange val) = []
    ∧ configChanges (onIdentityServerChange val) = []
    ∧ (applyTrace s (onIdentityServerChange val)).hsUrl = s.hsUrl
    ∧ (applyTrace s (onIdentityServerChange val)).busy = s.busy
    ∧ (applyTrace s (onIdentityServerChange val)).errorText = s.errorText := by
  refine ⟨rfl, rfl, rfl, rfl, rfl, rfl, rfl, rfl, rfl, rfl, rfl, rfl, rfl, rfl⟩

/-- C10: every fast-path invocation of `validateAndApplyServer` leaves
`state.hsUrl` and `state.isUrl` untouched — it writes only `busy` and
`errorText`; in particular an external config change whose URLs equal the
default but differ from the current edits never adopts those URLs into the
edit state. -/
theorem C10_fast_path_frame (d : ServerConfig)
    (v : String → String → DiscoveryResult) (hs is : String)
    (h : d.hsUrl = hs ∧ d.isUrl = is) :
    (∀ s, (applyTrace s (validateAndApplyServer d v hs is).1).hsUrl = s.hsUrl
      ∧ (applyTrace s (validateAndApplyServer d v hs is).1).isUrl = s.isUrl
      ∧ applyTrace s (validateAndApplyServer d v hs is).1 =
          { s with busy := false, errorText := "" })
    ∧ (∀ s c, c.hsUrl = hs → c.isUrl = is →
        ¬(c.hsUrl = s.hsUrl ∧ c.isUrl = s.isUrl) →
        (applyTrace s (componentWillReceiveProps d v c s).1).hsUrl = s.hsUrl
        ∧ (applyTrace s (componentWillReceiveProps d v c s).1).isUrl =
            s.isUrl) := by
  have h1 := fastPath_eq d v hs is h
  constructor
  · intro s
    refine ⟨?_, ?_, ?_⟩ <;> simp [h1, applyTrace, applyEvent]
  · intro s c hch hci hne
    have hc : componentWillReceiveProps d v c s =
        validateAndApplyServer d v hs is := by
      unfold componentWillReceiveProps
      rw [if_neg hne, hch, hci]
    constructor <;> simp [hc, h1, applyTrace, applyEvent]

/-- Witness for C10: the default config arriving over custom edits leaves
the edits as they were. -/
theorem C10_fast_path_frame_w :
    (applyTrace editedState
        (componentWillReceiveProps dConf vOk dConf editedState).1).hsUrl =
      editedState.hsUrl
    ∧ (applyTrace editedState
        (componentWillReceiveProps dConf vOk dConf editedState).1).isUrl =
      editedState.isUrl
    ∧ (applyTrace editedState
        (validateAndApplyServer dConf vOk dConf.hsUrl dConf.isUrl).1).hsUrl =
      editedState.hsUrl := by
  have h := C10_fast_path_frame dConf vOk dConf.hsUrl dConf.isUrl ⟨rfl, rfl⟩
  have hb := h.2 editedState dConf rfl rfl (by decide)
  exact ⟨hb.1, hb.2, (h.1 editedState).1⟩

end ServerConfigSpec
